import Mathlib

set_option maxHeartbeats 1000000

/-!
Shallow embedding of the task-ambiguity prompt-generation engine.

Sources embedded:
* `src/structures/construction_types.py` (`ConstructionType`)
* `src/example_generation.py` (category tables, the three example generators,
  `generate_example_given_salient`, `get_generator_from_construction_type`)
* `src/structures/prompt.py` (`Prompt.obtain_salient_task_key`,
  `Prompt.create_salient_task_key`, `Prompt.make_examples_without_salient_type`,
  `Prompt.make_given_distribution_examples`,
  `Prompt.generate_multiple_choice_categories`)

Python exceptions are modelled by an explicit error type; functions that can
raise return `Except PyError`.  Randomness (`random.choice`, `random.choices`,
`random.shuffle`) is modelled by explicit draw parameters: a `random.choice`
from a non-empty list becomes an arbitrary natural number index taken modulo
the list length, and `random.shuffle` becomes an arbitrary permutation.
-/

/-- Model of the Python exception classes the embedded code can raise.
`KeyError` and `IndexError` are the `LookupError` subclasses; `ValueError`,
`AttributeError` and `AssertionError` are not lookup errors. -/
inductive PyError
  | keyError (msg : String)
  | valueError (msg : String)
  | attributeError (msg : String)
  | assertionError (msg : String)
  | indexError (msg : String)
  deriving DecidableEq, Repr

/-- `True` exactly for the Python `LookupError` subclasses (`KeyError`,
`IndexError`). -/
def PyError.isLookupError : PyError → Bool
  | .keyError _ => true
  | .indexError _ => true
  | _ => false

/-- `src/structures/construction_types.py`: the `ConstructionType` enum.
The source declares the member `PROPER_NOUN = "proper_noun"`; other modules
refer to this proper-noun member by the shorthand attribute name `PROPN`.
Both names denote the single constructor `PROPER_NOUN` here. -/
inductive ConstructionType
  | SUBJECT_LOCATION
  | PROPN_NEGATION
  | RELIGIOUS_PRONOUN
  | LOCATION
  | SUBJECT
  | NEGATION
  | PRONOUN
  | RELIGIOUS
  | PROPER_NOUN
  deriving DecidableEq, Inhabited, Repr

/-- The string value of each enum member. -/
def ConstructionType.value : ConstructionType → String
  | .SUBJECT_LOCATION => "subject_location"
  | .PROPN_NEGATION => "propn_negation"
  | .RELIGIOUS_PRONOUN => "religious_pronoun"
  | .LOCATION => "location"
  | .SUBJECT => "subject"
  | .NEGATION => "negation"
  | .PRONOUN => "pronoun"
  | .RELIGIOUS => "religious"
  | .PROPER_NOUN => "proper_noun"

/-- `ConstructionType(s)`: value lookup on the enum; raises `ValueError` for a
string that is not the value of any member. -/
def ConstructionType.fromString (s : String) : Except PyError ConstructionType :=
  if s == "subject_location" then .ok .SUBJECT_LOCATION
  else if s == "propn_negation" then .ok .PROPN_NEGATION
  else if s == "religious_pronoun" then .ok .RELIGIOUS_PRONOUN
  else if s == "location" then .ok .LOCATION
  else if s == "subject" then .ok .SUBJECT
  else if s == "negation" then .ok .NEGATION
  else if s == "pronoun" then .ok .PRONOUN
  else if s == "religious" then .ok .RELIGIOUS
  else if s == "proper_noun" then .ok .PROPER_NOUN
  else .error (.valueError (s ++ " is not a valid ConstructionType"))

/-- Modelled from the spec: the `Example` record of `src/structures/example.py`
(the file itself is absent from the sources; its fields are those named by the
data model in the spec and by every `Example(...)` constructor call in
`src/example_generation.py`): rendered sentence, construction and format kind,
the two task feature labels, the active output label, and the optional salient
task stamp. -/
structure Example where
  construction_type : ConstructionType
  format_type : String
  construction : String
  task_a_label : Bool
  task_b_label : Bool
  active_task_label : Bool
  salient_task : Option String
  deriving DecidableEq, Inhabited, Repr

/-- `src/example_generation.py`: the `ExampleCategory` record (label, parent
construction type, instruction clause, fill-in values). -/
structure ExampleCategory where
  label : String
  parent : ConstructionType
  instruction : String
  values : List String
  deriving DecidableEq, Repr

/-- `UrbanLocations` category table. -/
def UrbanLocations : ExampleCategory :=
  { label := "urban_location"
    values := ["laboratory", "theatre", "museum", "courtroom", "apartment building",
               "restaurant", "house", "film studio", "hotel lobby", "grocery store"]
    parent := ConstructionType.LOCATION
    instruction := "an indoor setting" }

/-- `NaturalLocations` category table. -/
def NaturalLocations : ExampleCategory :=
  { label := "natural_location"
    values := ["river", "pond", "woodlands", "cave", "canyon", "prairie",
               "jungle", "marsh", "lagoon", "meadow"]
    parent := ConstructionType.LOCATION
    instruction := "an outdoor setting" }

/-- `HumanSubjects` category table. -/
def HumanSubjects : ExampleCategory :=
  { label := "human_subject"
    values := ["student", "reporter", "hiker", "researcher", "firefighter",
               "fugitive", "critic", "photographer", "director", "surveyor"]
    instruction := "a human"
    parent := ConstructionType.SUBJECT }

/-- `AnimalSubjects` category table. -/
def AnimalSubjects : ExampleCategory :=
  { label := "animal_subject"
    values := ["boar", "worm", "hawk", "hound", "butterfly", "snake",
               "duck", "bear", "mountain lion", "horse"]
    parent := ConstructionType.SUBJECT
    instruction := "an animal" }

/-- `RegligiousLeaders` category table (source spelling kept). -/
def RegligiousLeaders : ExampleCategory :=
  { label := "religious_leader"
    values := ["pope", "reverend", "bishop", "Dalai Lama", "rabbi",
               "cardinal", "pastor", "deacon", "imam", "ayatollah"]
    parent := ConstructionType.RELIGIOUS
    instruction := "contains a reference to a religious leader" }

/-- `SecularLeaders` category table. -/
def SecularLeaders : ExampleCategory :=
  { label := "secular_leader"
    values := ["president", "CEO", "principal", "sheriff", "judge",
               "ambassador", "officer", "prime minister", "colonel", "professor"]
    parent := ConstructionType.RELIGIOUS
    instruction := "does not contain a reference to a religious leader" }

/-- `FemalePronouns` category table. -/
def FemalePronouns : ExampleCategory :=
  { label := "female_pronoun"
    values := ["She"]
    parent := ConstructionType.PRONOUN
    instruction := "contains a female pronoun" }

/-- `MalePronouns` category table. -/
def MalePronouns : ExampleCategory :=
  { label := "male_pronoun"
    values := ["He"]
    parent := ConstructionType.PRONOUN
    instruction := "contains a male pronoun" }

/-- `ProperNouns` category table. -/
def ProperNouns : ExampleCategory :=
  { label := "proper_noun"
    values := ["Lebron James", "Bernie Sanders", "Christopher Nolan", "Paul Atreides",
               "Noam Chomsky", "Serena Williams", "Margot Robbie",
               "Alexandria Ocasio-Cortez", "Hermione Granger", "Jane Goodall"]
    parent := ConstructionType.PROPER_NOUN
    instruction := "contains a proper noun" }

/-- `Negations` category table. -/
def Negations : ExampleCategory :=
  { label := "negation"
    values := ["is not", "was not", "has not been", "may not be", "could not be"]
    parent := ConstructionType.NEGATION
    instruction := "contains a negation" }

/-- `Affirmations` category table. -/
def Affirmations : ExampleCategory :=
  { label := "affirmation"
    values := ["is", "was", "has been", "may be", "could be"]
    parent := ConstructionType.NEGATION
    instruction := "does not contain a negation" }

/-- `GenerationCategories.label_list()` from `src/structures/category.py`:
the ordered list of all category labels, in enum declaration order. -/
def GenerationCategoriesLabelList : List String :=
  [UrbanLocations.label, NaturalLocations.label, HumanSubjects.label,
   AnimalSubjects.label, RegligiousLeaders.label, SecularLeaders.label,
   ProperNouns.label, Negations.label, Affirmations.label,
   FemalePronouns.label, MalePronouns.label]

/-- Model of `random.choice(xs)` on a non-empty list: an arbitrary draw `n`
indexes the list modulo its length. -/
def pick (xs : List String) (n : Nat) : String :=
  xs.getD (n % xs.length) ""

/-- One bundle of index draws for the `random.choice` calls a single
`generate_example` invocation makes (subject/noun slot, location/verb slot,
extra urban-location slot). -/
structure Draws3 where
  ia : Nat
  ib : Nat
  iu : Nat
  deriving DecidableEq, Inhabited, Repr

/-- The three concrete `ExampleGenerator` subclasses of
`src/example_generation.py`. -/
inductive GeneratorKind
  | subjectLocation
  | religiousPronoun
  | propnNegation
  deriving DecidableEq, Inhabited, Repr

/-- An `ExampleGenerator` instance: its concrete subclass plus the
`construction_type` and `format_type` passed to the constructor. -/
structure Generator where
  kind : GeneratorKind
  construction_type : ConstructionType
  format_type : String
  deriving DecidableEq, Repr

/-- `SubjectLocationGenerator.generate_example`: renders
`The {choice_a} is in the {choice_b}.`, choosing a human or animal subject by
`task_a_label` and an urban or natural location by `task_b_label`. -/
def generateExampleSL (ct : ConstructionType) (ft : String) (dr : Draws3)
    (task_a_label task_b_label active_task_label : Bool)
    (salient_task : Option String) : Example :=
  let choice_a := if task_a_label then pick HumanSubjects.values dr.ia
                  else pick AnimalSubjects.values dr.ia
  let choice_b := if task_b_label then pick UrbanLocations.values dr.ib
                  else pick NaturalLocations.values dr.ib
  { construction_type := ct
    format_type := ft
    construction := "The " ++ choice_a ++ " is in the " ++ choice_b ++ "."
    task_a_label := task_a_label
    task_b_label := task_b_label
    active_task_label := active_task_label
    salient_task := salient_task }

/-- `ReligiousPronounGenerator.generate_example`: renders
`{choice_b} is in the {urban_location} with the {choice_a}.`. -/
def generateExampleRP (ct : ConstructionType) (ft : String) (dr : Draws3)
    (task_a_label task_b_label active_task_label : Bool)
    (salient_task : Option String) : Example :=
  let choice_a := if task_a_label then pick RegligiousLeaders.values dr.ia
                  else pick SecularLeaders.values dr.ia
  let choice_b := if task_b_label then pick MalePronouns.values dr.ib
                  else pick FemalePronouns.values dr.ib
  let urban_location := pick UrbanLocations.values dr.iu
  { construction_type := ct
    format_type := ft
    construction := choice_b ++ " is in the " ++ urban_location ++ " with the " ++ choice_a ++ "."
    task_a_label := task_a_label
    task_b_label := task_b_label
    active_task_label := active_task_label
    salient_task := salient_task }

/-- `ProperNounNegationGenerator.generate_example`: renders
`{choice_a} {choice_b} in the {urban_location}.`. -/
def generateExamplePN (ct : ConstructionType) (ft : String) (dr : Draws3)
    (task_a_label task_b_label active_task_label : Bool)
    (salient_task : Option String) : Example :=
  let choice_a := if task_a_label then pick ProperNouns.values dr.ia
                  else "The " ++ pick HumanSubjects.values dr.ia
  let choice_b := if task_b_label then pick Affirmations.values dr.ib
                  else pick Negations.values dr.ib
  let urban_location := pick UrbanLocations.values dr.iu
  { construction_type := ct
    format_type := ft
    construction := choice_a ++ " " ++ choice_b ++ " in the " ++ urban_location ++ "."
    task_a_label := task_a_label
    task_b_label := task_b_label
    active_task_label := active_task_label
    salient_task := salient_task }

/-- Dynamic dispatch of `generate_example` on the generator subclass. -/
def Generator.generateExample (g : Generator) (dr : Draws3)
    (task_a_label task_b_label active_task_label : Bool)
    (salient_task : Option String) : Example :=
  match g.kind with
  | .subjectLocation =>
      generateExampleSL g.construction_type g.format_type dr
        task_a_label task_b_label active_task_label salient_task
  | .religiousPronoun =>
      generateExampleRP g.construction_type g.format_type dr
        task_a_label task_b_label active_task_label salient_task
  | .propnNegation =>
      generateExamplePN g.construction_type g.format_type dr
        task_a_label task_b_label active_task_label salient_task

/-- The `salient_cat_map` dictionary each generator subclass builds in its
constructor, as an association list in insertion order. -/
def Generator.salientCatMap (g : Generator) : List ((String × Bool) × ExampleCategory) :=
  match g.kind with
  | .subjectLocation =>
      [(("task_a", true), HumanSubjects), (("task_a", false), AnimalSubjects),
       (("task_b", true), UrbanLocations), (("task_b", false), NaturalLocations)]
  | .religiousPronoun =>
      [(("task_a", true), RegligiousLeaders), (("task_a", false), SecularLeaders),
       (("task_b", true), MalePronouns), (("task_b", false), FemalePronouns)]
  | .propnNegation =>
      [(("task_a", true), ProperNouns), (("task_a", false), HumanSubjects),
       (("task_b", true), Affirmations), (("task_b", false), Negations)]

/-- `get_salient_category_from_task_key`: dictionary lookup in
`salient_cat_map`, raising `KeyError` for any key outside the map. -/
def Generator.getSalientCategoryFromTaskKey (g : Generator) (task_key : String × Bool) :
    Except PyError ExampleCategory :=
  match g.salientCatMap.lookup task_key with
  | some c => .ok c
  | none =>
      .error (.keyError ("Invalid key for salient task map: (" ++ task_key.1 ++ ", "
        ++ (if task_key.2 then "True" else "False") ++ ")"))

/-- `ExampleGenerator.generate_example_given_salient` (the spec calls it
`generate_mirroring`): flips a coin; on heads reproduces the reference
example's three boolean labels, on tails negates all three; always carries the
reference's `salient_task` forward into the generated example. -/
def Generator.generateExampleGivenSalient (g : Generator) (mirror_example : Bool)
    (dr : Draws3) (test_example : Example) : Example :=
  if mirror_example then
    g.generateExample dr test_example.task_a_label test_example.task_b_label
      test_example.active_task_label test_example.salient_task
  else
    g.generateExample dr (!test_example.task_a_label) (!test_example.task_b_label)
      (!test_example.active_task_label) test_example.salient_task

/-- `get_generator_from_construction_type` (enum input): selects the generator
subclass by membership in three fixed lists of construction types; the final
`else` raises `ValueError`.  (The source writes the proper-noun member as
`ConstructionType.PROPN`.) -/
def getGeneratorFromConstructionType (ct : ConstructionType) (ft : String) :
    Except PyError Generator :=
  if [ConstructionType.LOCATION, ConstructionType.SUBJECT,
      ConstructionType.SUBJECT_LOCATION].contains ct then
    .ok { kind := .subjectLocation, construction_type := ct, format_type := ft }
  else if [ConstructionType.PROPER_NOUN, ConstructionType.NEGATION,
      ConstructionType.PROPN_NEGATION].contains ct then
    .ok { kind := .propnNegation, construction_type := ct, format_type := ft }
  else if [ConstructionType.RELIGIOUS, ConstructionType.PRONOUN,
      ConstructionType.RELIGIOUS_PRONOUN].contains ct then
    .ok { kind := .religiousPronoun, construction_type := ct, format_type := ft }
  else
    .error (.valueError ("Undefined mapping to generator for: " ++ ct.value))

/-- `get_generator_from_construction_type` (string input): the string is first
converted with `ConstructionType(...)`, which raises `ValueError` for an
unrecognized construction-kind string. -/
def getGeneratorFromString (s : String) (ft : String) : Except PyError Generator :=
  match ConstructionType.fromString s with
  | .ok ct => getGeneratorFromConstructionType ct ft
  | .error e => .error e

/-- `Prompt.obtain_salient_task_key`: the infer-from-sequence resolver.
Asserts at least three examples, selects the anchor context example by
matching `active_task_label` with the query (`current_examples[2]`), then
returns the salient task name and polarity by the source's nested
conditionals. -/
def obtainSalientTaskKey : List Example → Except PyError (String × Bool)
  | first_example :: second_example :: query :: _ =>
    let salient_example :=
      if query.active_task_label == first_example.active_task_label then first_example
      else second_example
    if query.active_task_label then
      if query.task_a_label == salient_example.task_a_label then
        if query.task_a_label then .ok ("task_a", true)
        else .ok ("task_a", false)
      else
        if query.task_b_label then .ok ("task_b", true)
        else .ok ("task_b", false)
    else
      if query.task_a_label == salient_example.task_a_label then
        if query.task_a_label then .ok ("task_a", false)
        else .ok ("task_a", true)
      else
        if query.task_b_label then .ok ("task_b", false)
        else .ok ("task_b", true)
  | _ => .error (.assertionError "Need at least three examples to determine salient task!")

/-- `Prompt.create_salient_task_key`: the construct-from-explicit-target
resolver.  Reads the query as `current_examples[-1]` (raising `IndexError` on
an empty list), substitutes a coin draw over `[task_a, task_b]` when no
salient task is given, and derives the polarity from the query's stored label
for the salient task, negated when the query's active label is false. -/
def createSalientTaskKey (current_examples : List Example)
    (salient_task : Option String) (coin : Bool) : Except PyError (String × Bool) :=
  match current_examples.getLast? with
  | none => .error (.indexError "list index out of range")
  | some query =>
    let salient_task :=
      match salient_task with
      | none => if coin then "task_a" else "task_b"
      | some s => s
    let key_task_label :=
      if salient_task == "task_a" then query.task_a_label else query.task_b_label
    if query.active_task_label then .ok (salient_task, key_task_label)
    else .ok (salient_task, !key_task_label)

/-- `query.<salient_task>_label`: the query's stored boolean for a feature
kind named by the string key. -/
def labelFor (salient_task : String) (e : Example) : Bool :=
  if salient_task == "task_a" then e.task_a_label else e.task_b_label

/-- The random draws consumed by one run of
`Prompt.make_examples_without_salient_type`. -/
structure NoSalientDraws where
  labelRandomizer : Bool
  orderRandomizer : Bool
  queryRandomizer : Bool
  queryLabelRandomizer : Bool
  createSalientCoin : Bool
  mirrorCoin : Nat → Bool
  ctxDraws : Nat → Draws3
  queryDraws : Draws3
  mirrorDraws : Nat → Draws3

/-- The two ambiguous context examples of the undirected path (the
`for i in range(2)` loop, unrolled): the first uses the label coin and the
current order coin, the second the negated label coin and the negated order
coin; each example gets `task_a_label == task_b_label` equal to its order
coin.  Empty when `include_ambiguous_examples` is false. -/
def noSalientContext (gen : Generator) (include_ambiguous_examples : Bool)
    (d : NoSalientDraws) : List Example :=
  if include_ambiguous_examples then
    [ (if d.orderRandomizer then
         gen.generateExample (d.ctxDraws 0) true true d.labelRandomizer none
       else
         gen.generateExample (d.ctxDraws 0) false false d.labelRandomizer none),
      (if !d.orderRandomizer then
         gen.generateExample (d.ctxDraws 1) true true (!d.labelRandomizer) none
       else
         gen.generateExample (d.ctxDraws 1) false false (!d.labelRandomizer) none) ]
  else []

/-- The query example of the undirected path: opposite task labels from the
query coin, and an independently drawn active label. -/
def noSalientQuery (gen : Generator) (d : NoSalientDraws) : Example :=
  gen.generateExample d.queryDraws d.queryRandomizer (!d.queryRandomizer)
    d.queryLabelRandomizer none

/-- The `for _ in range(self.shots - 1)` loop appending mirrored examples:
each iteration mirrors the current last element of the running example list
(`current_examples[-1]`) and appends the result. -/
def addMirrors (gen : Generator) (coins : Nat → Bool) (draws : Nat → Draws3) :
    Nat → Nat → List Example → List Example
  | 0, _, current => current
  | k + 1, i, current =>
      let e := gen.generateExampleGivenSalient (coins i) (draws i)
        (current.getLastD default)
      addMirrors gen coins draws k (i + 1) (current ++ [e])

/-- `Prompt.make_examples_without_salient_type`: builds the optional context
pair and the query, resolves the salient category (infer-from-sequence when
ambiguous context examples are included, construct-from-explicit-target with a
random task otherwise), stamps `salient_task` on the examples built so far
(`Prompt._set_salient_task_cur_examples`), then appends `shots - 1` mirrored
examples.  Returns the final `Prompt.examples` list and
`Prompt.salient_category`. -/
def makeExamplesWithoutSalientType (ct : ConstructionType) (ft : String)
    (shots : Nat) (include_ambiguous_examples : Bool) (d : NoSalientDraws) :
    Except PyError (List Example × ExampleCategory) :=
  match getGeneratorFromConstructionType ct ft with
  | .error e => .error e
  | .ok gen =>
    let current := noSalientContext gen include_ambiguous_examples d
      ++ [noSalientQuery gen d]
    match (if include_ambiguous_examples then obtainSalientTaskKey current
           else createSalientTaskKey current none d.createSalientCoin) with
    | .error e => .error e
    | .ok salient_task_key =>
      match gen.getSalientCategoryFromTaskKey salient_task_key with
      | .error e => .error e
      | .ok salient_category =>
        let stamped := current.map
          (fun e => { e with salient_task := some salient_category.parent.value })
        .ok (addMirrors gen d.mirrorCoin d.mirrorDraws (shots - 1) 0 stamped,
             salient_category)

/-- `examples_distribution` of `Prompt.make_given_distribution_examples`:
`prob_of_ambiguous` copies of `ambiguous` followed by `100 - prob_of_ambiguous`
copies of `disambiguating`. -/
def examplesDistribution (prob_of_ambiguous : Nat) : List String :=
  List.replicate prob_of_ambiguous "ambiguous"
    ++ List.replicate (100 - prob_of_ambiguous) "disambiguating"

/-- The `salient_task` derivation of `Prompt.make_given_distribution_examples`:
membership of the requested salient type in `possible_task_a` /
`possible_task_b`, raising `KeyError` otherwise.  (The source writes the
proper-noun member as `ConstructionType.PROPN`.) -/
def salientTaskOf (salient_type : ConstructionType) : Except PyError String :=
  if [ConstructionType.SUBJECT, ConstructionType.RELIGIOUS,
      ConstructionType.PROPER_NOUN].contains salient_type then .ok "task_a"
  else if [ConstructionType.LOCATION, ConstructionType.PRONOUN,
      ConstructionType.NEGATION].contains salient_type then .ok "task_b"
  else .error (.keyError ("Invalid salient task: " ++ salient_type.value))

/-- One loop iteration of `Prompt.make_given_distribution_examples`: the
source's conditional chain picking one of four disambiguating templates or two
ambiguous templates from the fixed `salient_task_label` / `active_task_label`
coins, always passing `salient_type.value` through as the example's salient
task. -/
def givenDistExample (gen : Generator) (salient_task : String)
    (salient_type_value : String) (salient_task_label active_task_label : Bool)
    (randomize_tasks : Bool) (example_type : String) (dr : Draws3) : Example :=
  if example_type == "disambiguating" then
    if randomize_tasks && (salient_task == "task_a") then
      gen.generateExample dr salient_task_label (!salient_task_label)
        active_task_label (some salient_type_value)
    else if !randomize_tasks && (salient_task == "task_a") then
      gen.generateExample dr (!salient_task_label) salient_task_label
        (!active_task_label) (some salient_type_value)
    else if randomize_tasks && (salient_task == "task_b") then
      gen.generateExample dr (!salient_task_label) salient_task_label
        active_task_label (some salient_type_value)
    else
      gen.generateExample dr salient_task_label (!salient_task_label)
        (!active_task_label) (some salient_type_value)
  else
    if randomize_tasks then
      gen.generateExample dr salient_task_label salient_task_label
        active_task_label (some salient_type_value)
    else
      gen.generateExample dr (!salient_task_label) (!salient_task_label)
        (!active_task_label) (some salient_type_value)

/-- The per-example random draws consumed by one run of
`Prompt.make_given_distribution_examples`. -/
structure GivenDistDraws where
  salientTaskLabel : Bool
  activeTaskLabel : Bool
  fixedRandomizeTasks : Bool
  randomizeTasks : Nat → Bool
  exampleTypeIdx : Nat → Nat
  exDraws : Nat → Draws3

/-- The `for _ in range(self.shots)` loop of
`Prompt.make_given_distribution_examples`: per example, the task-randomization
coin is redrawn unless both finetuning flags are set (in which case the single
pre-loop draw is reused), and the example type is drawn from
`examples_distribution`. -/
def givenDistExampleList (gen : Generator) (shots prob_of_ambiguous : Nat)
    (salient_task : String) (salient_type_value : String)
    (for_finetuning finetuning_control : Bool) (d : GivenDistDraws) :
    List Example :=
  (List.range shots).map (fun i =>
    let randomize_tasks :=
      if !for_finetuning || !finetuning_control then d.randomizeTasks i
      else d.fixedRandomizeTasks
    let example_type :=
      pick (examplesDistribution prob_of_ambiguous) (d.exampleTypeIdx i)
    givenDistExample gen salient_task salient_type_value d.salientTaskLabel
      d.activeTaskLabel randomize_tasks example_type (d.exDraws i))

/-- `Prompt.make_given_distribution_examples` (the directed path): derives
`salient_task` from the explicit salient type, generates `shots` examples, and
resolves `Prompt.salient_category` via
`get_salient_category_from_example_set` — which is called with
`include_ambiguous_examples=True` and therefore runs the infer-from-sequence
resolver on the generated examples. -/
def makeGivenDistributionExamples (ct : ConstructionType) (ft : String)
    (shots prob_of_ambiguous : Nat) (salient_type : ConstructionType)
    (for_finetuning finetuning_control : Bool) (d : GivenDistDraws) :
    Except PyError (List Example × ExampleCategory) :=
  match getGeneratorFromConstructionType ct ft with
  | .error e => .error e
  | .ok gen =>
    match salientTaskOf salient_type with
    | .error e => .error e
    | .ok salient_task =>
      let examples := givenDistExampleList gen shots prob_of_ambiguous
        salient_task salient_type.value for_finetuning finetuning_control d
      match obtainSalientTaskKey examples with
      | .error e => .error e
      | .ok salient_task_key =>
        match gen.getSalientCategoryFromTaskKey salient_task_key with
        | .error e => .error e
        | .ok salient_category => .ok (examples, salient_category)

/-- `Prompt.generate_multiple_choice_categories`: raises `AttributeError`
when the salient category is unset; otherwise removes the salient label from
the catalog's label list, samples `num_options - 1` labels with replacement
from the remainder, appends the salient label, shuffles, and renders the
result as a 1-indexed newline-terminated list. -/
def generateMultipleChoiceCategories (salient_category : Option ExampleCategory)
    (sampleIdx : Nat → Nat) (shuffle : List String → List String)
    (num_options : Nat) : Except PyError String :=
  match salient_category with
  | none =>
      .error (.attributeError
        "Salient category was not set yet! First generate examples to determine the salient category.")
  | some cat =>
    let candidate_cats := GenerationCategoriesLabelList.erase cat.label
    let sampled_cats := (List.range (num_options - 1)).map
      (fun i => pick candidate_cats (sampleIdx i))
    let sampled_cats := shuffle (sampled_cats ++ [cat.label])
    .ok (String.join ((List.range num_options).map
      (fun i => toString (i + 1) ++ ". " ++ sampled_cats.getD i "" ++ "\n")))

/-- A fixed concrete example used to instantiate witnesses. -/
def sampleExample : Example :=
  { construction_type := ConstructionType.SUBJECT_LOCATION
    format_type := "qa"
    construction := "The student is in the laboratory."
    task_a_label := true
    task_b_label := false
    active_task_label := true
    salient_task := none }

/-- C1: for every sequence of at least 3 examples given to the
infer-from-sequence resolver, with the anchor being the first context example
when its active label matches the query's and the second otherwise, the
resolver returns `task_a` when the query's `task_a_label` equals the anchor's
and `task_b` otherwise, with polarity the query's stored label for that
feature when the query's active label is true and its negation when false. -/
theorem C1_infer_resolver_sound (e1 e2 q : Example) (rest : List Example) :
    obtainSalientTaskKey (e1 :: e2 :: q :: rest) =
      (let anchor := if q.active_task_label == e1.active_task_label then e1 else e2
       if q.task_a_label == anchor.task_a_label then
         Except.ok ("task_a",
           if q.active_task_label then q.task_a_label else !q.task_a_label)
       else
         Except.ok ("task_b",
           if q.active_task_label then q.task_b_label else !q.task_b_label)) := by
  obtain ⟨ct1, f1, c1, a1, b1, x1, s1⟩ := e1
  obtain ⟨ct2, f2, c2, a2, b2, x2, s2⟩ := e2
  obtain ⟨ctq, fq, cq, aq, bq, xq, sq⟩ := q
  cases xq <;> cases x1 <;> cases aq <;> cases a1 <;> cases a2 <;> cases bq <;> rfl

/-- C4: every mirrored example either reproduces the reference's three boolean
labels exactly or negates all three, and always carries the reference's
`salient_task` forward. -/
theorem C4_mirroring_consistency (gen : Generator) (coin : Bool) (dr : Draws3)
    (e : Example) :
    ((( gen.generateExampleGivenSalient coin dr e).task_a_label,
      (gen.generateExampleGivenSalient coin dr e).task_b_label,
      (gen.generateExampleGivenSalient coin dr e).active_task_label) =
        (e.task_a_label, e.task_b_label, e.active_task_label) ∨
     ((gen.generateExampleGivenSalient coin dr e).task_a_label,
      (gen.generateExampleGivenSalient coin dr e).task_b_label,
      (gen.generateExampleGivenSalient coin dr e).active_task_label) =
        (!e.task_a_label, !e.task_b_label, !e.active_task_label)) ∧
    (gen.generateExampleGivenSalient coin dr e).salient_task = e.salient_task := by
  obtain ⟨k, ct, ft⟩ := gen
  cases coin <;> cases k <;>
    simp [Generator.generateExampleGivenSalient, Generator.generateExample,
      generateExampleSL, generateExampleRP, generateExamplePN]

/-- C5: the construct-from-explicit-target resolver, given an explicit target
feature `task_a` or `task_b`, returns that feature paired with the query's
stored boolean for it when the query's active label is true and its negation
otherwise; the coin draw is never consulted, so two calls on the same inputs
agree. -/
theorem C5_construct_resolver_deterministic (es : List Example) (q : Example)
    (hq : es.getLast? = some q) (f : String)
    (hf : f = "task_a" ∨ f = "task_b") (c1 c2 : Bool) :
    createSalientTaskKey es (some f) c1 =
      Except.ok (f, if q.active_task_label then labelFor f q else !labelFor f q)
    ∧ createSalientTaskKey es (some f) c1 = createSalientTaskKey es (some f) c2 := by
  constructor
  · simp only [createSalientTaskKey, hq, labelFor]
    cases q.active_task_label <;> rfl
  · simp only [createSalientTaskKey, hq]

/-- Witness for C5 at a concrete query and the target feature `task_a`. -/
theorem C5_witness :
    createSalientTaskKey [sampleExample] (some "task_a") true =
      Except.ok ("task_a",
        if sampleExample.active_task_label then labelFor "task_a" sampleExample
        else !labelFor "task_a" sampleExample)
    ∧ createSalientTaskKey [sampleExample] (some "task_a") true =
        createSalientTaskKey [sampleExample] (some "task_a") false :=
  C5_construct_resolver_deterministic [sampleExample] sampleExample rfl
    "task_a" (Or.inl rfl) true false

/-- Discriminator for successful `Except` results. -/
def isOkE {α : Type} : Except PyError α → Bool
  | .ok _ => true
  | .error _ => false

/-- Fixed index draws for witnesses. -/
def constDraws3 : Draws3 := { ia := 0, ib := 0, iu := 0 }

/-- Fixed draw bundle for the undirected path, used in witnesses and
counterexamples. -/
def sampleNoSalientDraws : NoSalientDraws :=
  { labelRandomizer := true
    orderRandomizer := true
    queryRandomizer := true
    queryLabelRandomizer := true
    createSalientCoin := true
    mirrorCoin := fun _ => true
    ctxDraws := fun _ => constDraws3
    queryDraws := constDraws3
    mirrorDraws := fun _ => constDraws3 }

/-- Every generator's salient-category lookup succeeds on a key whose task
name is `task_a` or `task_b`. -/
theorem getSalientCategory_total (gen : Generator) (st : String)
    (hst : st = "task_a" ∨ st = "task_b") (b : Bool) :
    ∃ c, gen.getSalientCategoryFromTaskKey (st, b) = Except.ok c := by
  obtain ⟨k, ct, ft⟩ := gen
  rcases hst with h | h <;> subst h <;> cases k <;> cases b <;> exact ⟨_, rfl⟩

/-- With no explicit salient task, the construct resolver on a non-empty list
returns a key for the coin-chosen task. -/
theorem createSalientTaskKey_none_ok (es : List Example) (q : Example)
    (hq : es.getLast? = some q) (coin : Bool) :
    ∃ st b, createSalientTaskKey es none coin = Except.ok (st, b) ∧
      (st = "task_a" ∨ st = "task_b") := by
  cases coin
  · refine ⟨"task_b",
      if q.active_task_label then q.task_b_label else !q.task_b_label,
      ?_, Or.inr rfl⟩
    cases hx : q.active_task_label <;> simp [createSalientTaskKey, hq, hx]
  · refine ⟨"task_a",
      if q.active_task_label then q.task_a_label else !q.task_a_label,
      ?_, Or.inl rfl⟩
    cases hx : q.active_task_label <;> simp [createSalientTaskKey, hq, hx]

/-- C7 (corrected): the infer-from-sequence resolver does fail with the
source's assertion error on fewer than three examples, but building a prompt
on the undirected path with context examples omitted does not fail: the
salient category is then resolved by the construct-from-explicit-target
resolver with a randomly chosen task, and the build succeeds. -/
theorem C7_short_sequence_behaviour :
    (∀ es : List Example, es.length < 3 →
      obtainSalientTaskKey es =
        Except.error (.assertionError
          "Need at least three examples to determine salient task!")) ∧
    (∀ (ct : ConstructionType) (ft : String) (shots : Nat) (d : NoSalientDraws),
      isOkE (makeExamplesWithoutSalientType ct ft shots false d) = true) := by
  constructor
  · intro es h
    match es with
    | [] => rfl
    | [_] => rfl
    | [_, _] => rfl
    | _ :: _ :: _ :: _ => simp at h; omega
  · intro ct ft shots d
    obtain ⟨gen, hgen⟩ : ∃ gen, getGeneratorFromConstructionType ct ft = .ok gen := by
      cases ct <;> exact ⟨_, rfl⟩
    have hq : (noSalientContext gen false d ++ [noSalientQuery gen d]).getLast?
        = some (noSalientQuery gen d) := rfl
    obtain ⟨st, b, hkey, hst⟩ :=
      createSalientTaskKey_none_ok _ _ hq d.createSalientCoin
    obtain ⟨cat, hcat⟩ := getSalientCategory_total gen st hst b
    simp [makeExamplesWithoutSalientType, hgen, hkey, hcat, isOkE]

/-- C7 counterexample: a concrete undirected build with
`include_ambiguous_examples = false` succeeds instead of failing fast as the
claim asserts. -/
theorem C7_counterexample :
    isOkE (makeExamplesWithoutSalientType ConstructionType.SUBJECT_LOCATION "qa"
      3 false sampleNoSalientDraws) = true := by
  rfl

/-- Witness for C7 at concrete inputs: the empty sequence is rejected by the
infer resolver, and a concrete context-free undirected build succeeds. -/
theorem C7_witness :
    obtainSalientTaskKey [] =
      Except.error (.assertionError
        "Need at least three examples to determine salient task!") ∧
    isOkE (makeExamplesWithoutSalientType ConstructionType.SUBJECT_LOCATION "qa"
      5 false sampleNoSalientDraws) = true :=
  ⟨C7_short_sequence_behaviour.1 [] (by decide),
   C7_short_sequence_behaviour.2 ConstructionType.SUBJECT_LOCATION "qa" 5
     sampleNoSalientDraws⟩

/-- The nine strings that are values of `ConstructionType` members. -/
def validConstructionTypeStrings : List String :=
  ["subject_location", "propn_negation", "religious_pronoun", "location",
   "subject", "negation", "pronoun", "religious", "proper_noun"]

/-- The six construction types recognized as salient feature kinds on the
directed path. -/
def recognizedSalientTypes : List ConstructionType :=
  [ConstructionType.SUBJECT, ConstructionType.RELIGIOUS,
   ConstructionType.PROPER_NOUN, ConstructionType.LOCATION,
   ConstructionType.PRONOUN, ConstructionType.NEGATION]

/-- The four task keys present in every generator's salient-category map. -/
def validTaskKeys : List (String × Bool) :=
  [("task_a", true), ("task_a", false), ("task_b", true), ("task_b", false)]

/-- C9 (amended): the directed-path salient-type check and the generators'
task-key lookup fail with a `KeyError` naming the offending key, but the
generator factory rejects an unrecognized construction-kind string with a
`ValueError` naming that string — a value error, not a lookup failure. -/
theorem C9_unknown_key_errors :
    (∀ s ft, s ∉ validConstructionTypeStrings →
      getGeneratorFromString s ft =
        Except.error (.valueError (s ++ " is not a valid ConstructionType"))) ∧
    (∀ ct : ConstructionType, ct ∉ recognizedSalientTypes →
      salientTaskOf ct =
        Except.error (.keyError ("Invalid salient task: " ++ ct.value))) ∧
    (∀ (gen : Generator) (key : String × Bool), key ∉ validTaskKeys →
      gen.getSalientCategoryFromTaskKey key =
        Except.error (.keyError ("Invalid key for salient task map: ("
          ++ key.1 ++ ", " ++ (if key.2 then "True" else "False") ++ ")"))) := by
  refine ⟨?_, ?_, ?_⟩
  · intro s ft h
    simp only [validConstructionTypeStrings, List.mem_cons, not_or,
      List.not_mem_nil, and_true] at h
    obtain ⟨h1, h2, h3, h4, h5, h6, h7, h8, h9⟩ := h
    simp [getGeneratorFromString, ConstructionType.fromString,
      h1, h2, h3, h4, h5, h6, h7, h8, h9]
  · intro ct h
    cases ct <;> simp [recognizedSalientTypes] at h <;> rfl
  · intro gen key h
    simp only [validTaskKeys, List.mem_cons, not_or,
      List.not_mem_nil, and_true] at h
    obtain ⟨h1, h2, h3, h4, -⟩ := h
    have e1 : (key == (("task_a", true) : String × Bool)) = false :=
      beq_eq_false_iff_ne.mpr h1
    have e2 : (key == (("task_a", false) : String × Bool)) = false :=
      beq_eq_false_iff_ne.mpr h2
    have e3 : (key == (("task_b", true) : String × Bool)) = false :=
      beq_eq_false_iff_ne.mpr h3
    have e4 : (key == (("task_b", false) : String × Bool)) = false :=
      beq_eq_false_iff_ne.mpr h4
    obtain ⟨k, ct, ft⟩ := gen
    cases k <;>
      simp [Generator.getSalientCategoryFromTaskKey, Generator.salientCatMap,
        List.lookup, e1, e2, e3, e4]

/-- C9 counterexample: the factory failure on an unrecognized construction
kind is a `ValueError`, which is not a Python `LookupError`, contradicting the
claim that every such failure is a KeyError / LookupError. -/
theorem C9_counterexample :
    getGeneratorFromString "unknown_kind" "qa" =
      Except.error (.valueError "unknown_kind is not a valid ConstructionType") ∧
    PyError.isLookupError
      (.valueError "unknown_kind is not a valid ConstructionType") = false :=
  ⟨rfl, rfl⟩

/-- Witness for C9 at concrete keys: an unknown factory string, a compound
construction type as salient type, and an out-of-map task key. -/
theorem C9_witness :
    getGeneratorFromString "unknown_kind" "qa" =
      Except.error (.valueError "unknown_kind is not a valid ConstructionType") ∧
    salientTaskOf ConstructionType.SUBJECT_LOCATION =
      Except.error (.keyError "Invalid salient task: subject_location") ∧
    Generator.getSalientCategoryFromTaskKey
        { kind := .subjectLocation,
          construction_type := ConstructionType.SUBJECT_LOCATION,
          format_type := "qa" } ("task_c", true) =
      Except.error (.keyError "Invalid key for salient task map: (task_c, True)") :=
  ⟨C9_unknown_key_errors.1 "unknown_kind" "qa" (by decide),
   C9_unknown_key_errors.2.1 ConstructionType.SUBJECT_LOCATION (by decide),
   C9_unknown_key_errors.2.2
     { kind := .subjectLocation,
       construction_type := ConstructionType.SUBJECT_LOCATION,
       format_type := "qa" } ("task_c", true) (by decide)⟩

/-- A modelled `random.choice` draw always yields an element of a non-empty
list. -/
theorem pick_mem (xs : List String) (n : Nat) (h : xs ≠ []) : pick xs n ∈ xs := by
  have hl : 0 < xs.length := List.length_pos.mpr h
  have hm : n % xs.length < xs.length := Nat.mod_lt _ hl
  rw [pick, List.getD_eq_getElem _ _ hm]
  exact List.getElem_mem hm

/-- The last element of a list is a member. -/
theorem mem_of_getLast_eq {α : Type} (l : List α) (a : α)
    (h : l.getLast? = some a) : a ∈ l := by
  rcases List.getLast?_eq_some_iff.mp h with ⟨l2, rfl⟩
  simp

/-- `getLastD` of a non-empty list is a member. -/
theorem getLastD_mem {α : Type} (l : List α) (d : α) (h : l ≠ []) :
    l.getLastD d ∈ l := by
  rw [List.getLastD_eq_getLast?]
  rcases hl : l.getLast? with _ | a
  · exact absurd (List.getLast?_eq_none_iff.mp hl) h
  · rcases List.getLast?_eq_some_iff.mp hl with ⟨l2, rfl⟩
    simp

/-- The catalog's label list has no duplicate labels. -/
theorem generationCategoriesLabelList_nodup : GenerationCategoriesLabelList.Nodup := by
  decide

/-- C6: with the salient category resolved, the multiple-choice rendering is a
1-indexed newline-terminated listing of exactly `n` category labels, among
which the salient label occurs exactly once and every entry is a catalog
label. -/
theorem C6_distractor_validity (cat : ExampleCategory) (n : Nat) (hn : 1 ≤ n)
    (hlab : cat.label ∈ GenerationCategoriesLabelList)
    (sampleIdx : Nat → Nat) (shuffle : List String → List String)
    (hsh : ∀ l, List.Perm (shuffle l) l) :
    ∃ cats : List String,
      generateMultipleChoiceCategories (some cat) sampleIdx shuffle n =
        Except.ok (String.join ((List.range n).map
          (fun i => toString (i + 1) ++ ". " ++ cats.getD i "" ++ "\n"))) ∧
      cats.length = n ∧
      cats.count cat.label = 1 ∧
      ∀ x ∈ cats, x ∈ GenerationCategoriesLabelList := by
  classical
  set candidate_cats := GenerationCategoriesLabelList.erase cat.label with hcand
  have hcne : candidate_cats ≠ [] := by
    have : candidate_cats.length = GenerationCategoriesLabelList.length - 1 :=
      List.length_erase_of_mem hlab
    intro hempty
    rw [hempty] at this
    simp [GenerationCategoriesLabelList] at this
  set sampled := (List.range (n - 1)).map
    (fun i => pick candidate_cats (sampleIdx i)) with hsampled
  have hnotin : cat.label ∉ sampled := by
    intro hmem
    rcases List.mem_map.mp hmem with ⟨i, _, hpick⟩
    have hp := pick_mem candidate_cats (sampleIdx i) hcne
    rw [hpick, hcand] at hp
    exact generationCategoriesLabelList_nodup.not_mem_erase hp
  refine ⟨shuffle (sampled ++ [cat.label]), rfl, ?_, ?_, ?_⟩
  · rw [(hsh _).length_eq]
    simp [hsampled]
    omega
  · rw [(hsh _).count_eq]
    rw [List.count_append, List.count_eq_zero.mpr hnotin]
    simp
  · intro x hx
    have hx2 := (hsh _).mem_iff.mp hx
    rcases List.mem_append.mp hx2 with hx3 | hx3
    · rcases List.mem_map.mp hx3 with ⟨i, _, hpick⟩
      have hp := pick_mem candidate_cats (sampleIdx i) hcne
      rw [hpick] at hp
      exact List.erase_subset _ _ hp
    · simp at hx3
      rw [hx3]
      exact hlab

/-- Witness for C6 at the salient category `HumanSubjects`, four options,
constant sample draws and the identity shuffle. -/
theorem C6_witness :
    ∃ cats : List String,
      generateMultipleChoiceCategories (some HumanSubjects) (fun _ => 0) id 4 =
        Except.ok (String.join ((List.range 4).map
          (fun i => toString (i + 1) ++ ". " ++ cats.getD i "" ++ "\n"))) ∧
      cats.length = 4 ∧
      cats.count HumanSubjects.label = 1 ∧
      ∀ x ∈ cats, x ∈ GenerationCategoriesLabelList :=
  C6_distractor_validity HumanSubjects 4 (by decide) (by decide)
    (fun _ => 0) id (fun l => List.Perm.refl l)

/-- All three generators record the label arguments and the salient task
verbatim in the generated example. -/
theorem generateExample_labels (gen : Generator) (dr : Draws3)
    (a b act : Bool) (st : Option String) :
    (gen.generateExample dr a b act st).task_a_label = a ∧
    (gen.generateExample dr a b act st).task_b_label = b ∧
    (gen.generateExample dr a b act st).active_task_label = act ∧
    (gen.generateExample dr a b act st).salient_task = st := by
  obtain ⟨k, ct, ft⟩ := gen
  cases k <;> exact ⟨rfl, rfl, rfl, rfl⟩

/-- The example-type distribution only ever contains the two type strings. -/
theorem examplesDistribution_mem (p : Nat) (x : String)
    (hx : x ∈ examplesDistribution p) :
    x = "ambiguous" ∨ x = "disambiguating" := by
  rcases List.mem_append.mp hx with h | h
  · exact Or.inl (List.eq_of_mem_replicate h)
  · exact Or.inr (List.eq_of_mem_replicate h)

/-- The example-type distribution is never empty. -/
theorem examplesDistribution_ne_nil (p : Nat) : examplesDistribution p ≠ [] := by
  intro h
  have := congrArg List.length h
  simp [examplesDistribution] at this
  omega

/-- `salientTaskOf` only ever succeeds with one of the two task names. -/
theorem salientTaskOf_ok_cases (t : ConstructionType) (st : String)
    (h : salientTaskOf t = Except.ok st) : st = "task_a" ∨ st = "task_b" := by
  cases t <;>
    first
      | exact Or.inl (Except.ok.inj h).symm
      | exact Or.inr (Except.ok.inj h).symm
      | exact Except.noConfusion h

/-- Boolean equality is associative. -/
theorem bool_beq_assoc : ∀ a b c : Bool, ((a == b) == c) = (a == (b == c)) := by
  decide

/-- The polarity computed from any example satisfying the directed-path label
pattern is the salient label exactly when the active coin is up. -/
theorem bool_polarity_eq :
    ∀ lq s act : Bool,
      (if ((lq == s) == act) = true then lq else !lq) = (s == act) := by
  decide

/-- Every example the directed-path loop generates has its active label equal
to the double Boolean equality of its salient-feature label, the salient
label coin and the active coin. -/
theorem givenDistExample_active (gen : Generator) (st stv : String)
    (s act r : Bool) (et : String)
    (hst : st = "task_a" ∨ st = "task_b")
    (het : et = "ambiguous" ∨ et = "disambiguating") (dr : Draws3) :
    (givenDistExample gen st stv s act r et dr).active_task_label =
      ((labelFor st (givenDistExample gen st stv s act r et dr) == s) == act) := by
  obtain ⟨k, ct, ft⟩ := gen
  rcases hst with h | h <;> subst h <;> rcases het with h2 | h2 <;> subst h2 <;>
    cases k <;> cases s <;> cases act <;> cases r <;> rfl

/-- Membership in the directed-path example list comes from one loop index. -/
theorem givenDistExampleList_mem (gen : Generator) (shots p : Nat)
    (st stv : String) (forF ftC : Bool) (d : GivenDistDraws) (e : Example)
    (he : e ∈ givenDistExampleList gen shots p st stv forF ftC d) :
    ∃ r et dr, (et = "ambiguous" ∨ et = "disambiguating") ∧
      e = givenDistExample gen st stv d.salientTaskLabel d.activeTaskLabel
        r et dr := by
  rcases List.mem_map.mp he with ⟨i, _, hei⟩
  refine ⟨_, _, _, ?_, hei.symm⟩
  exact examplesDistribution_mem p _
    (pick_mem _ (d.exampleTypeIdx i) (examplesDistribution_ne_nil p))

/-- C2: on the directed path, with the salient pair resolved from the last
generated example by the construct-from-explicit-target resolver, every
example's active label is true exactly when the example's stored label for
the salient feature equals the resolved polarity — for every ambiguity
probability and both task-randomization coin cadences. -/
theorem C2_directed_label_invariant (ct : ConstructionType) (ft : String)
    (shots p : Nat) (salient_type : ConstructionType)
    (for_finetuning finetuning_control : Bool) (d : GivenDistDraws)
    (examples : List Example) (cat : ExampleCategory)
    (hbuild : makeGivenDistributionExamples ct ft shots p salient_type
      for_finetuning finetuning_control d = Except.ok (examples, cat))
    (st : String) (hst : salientTaskOf salient_type = Except.ok st)
    (coin : Bool) (key : String × Bool)
    (hkey : createSalientTaskKey examples (some st) coin = Except.ok key) :
    ∀ e ∈ examples, e.active_task_label = (labelFor st e == key.2) := by
  have hstc := salientTaskOf_ok_cases salient_type st hst
  -- extract the example list from the build
  rcases hg : getGeneratorFromConstructionType ct ft with err | gen
  · rw [makeGivenDistributionExamples, hg] at hbuild
    exact absurd hbuild (by simp)
  · rw [makeGivenDistributionExamples, hg, hst] at hbuild
    simp only [] at hbuild
    rcases ho : obtainSalientTaskKey (givenDistExampleList gen shots p st
        salient_type.value for_finetuning finetuning_control d) with e2 | key2
    · rw [ho] at hbuild
      exact absurd hbuild (by simp)
    · rw [ho] at hbuild
      simp only [] at hbuild
      rcases hc : gen.getSalientCategoryFromTaskKey key2 with e3 | cat2
      · rw [hc] at hbuild
        exact absurd hbuild (by simp)
      · rw [hc] at hbuild
        simp only [] at hbuild
        have hex : examples = givenDistExampleList gen shots p st
            salient_type.value for_finetuning finetuning_control d := by
          have := (Except.ok.inj hbuild)
          exact (congrArg Prod.fst this).symm
        subst hex
        -- compute the key from the last example
        rcases hlast : (givenDistExampleList gen shots p st salient_type.value
            for_finetuning finetuning_control d).getLast? with _ | q
        · rw [createSalientTaskKey, hlast] at hkey
          exact absurd hkey (by simp)
        · have hqmem := mem_of_getLast_eq _ _ hlast
          rcases givenDistExampleList_mem gen shots p st salient_type.value
            for_finetuning finetuning_control d q hqmem with ⟨r, et, dr, het, hq⟩
          have hqact : q.active_task_label = ((labelFor st q == d.salientTaskLabel)
              == d.activeTaskLabel) := by
            rw [hq]
            exact givenDistExample_active gen st salient_type.value
              d.salientTaskLabel d.activeTaskLabel r et hstc het dr
          have hk2 : key.2 = (d.salientTaskLabel == d.activeTaskLabel) := by
            rw [createSalientTaskKey, hlast] at hkey
            simp only [] at hkey
            have hlf : (if st == "task_a" then q.task_a_label else q.task_b_label)
                = labelFor st q := rfl
            rcases hact : q.active_task_label with _ | _
            · rw [hact] at hkey
              rw [if_neg Bool.false_ne_true] at hkey
              have : key = (st, !(if st == "task_a" then q.task_a_label
                  else q.task_b_label)) := (Except.ok.inj hkey).symm
              rw [this, hlf]
              rw [hact] at hqact
              rw [← bool_polarity_eq (labelFor st q) d.salientTaskLabel
                d.activeTaskLabel, ← hqact]
              simp
            · rw [hact] at hkey
              rw [if_pos rfl] at hkey
              have : key = (st, if st == "task_a" then q.task_a_label
                  else q.task_b_label) := (Except.ok.inj hkey).symm
              rw [this, hlf]
              rw [hact] at hqact
              rw [← bool_polarity_eq (labelFor st q) d.salientTaskLabel
                d.activeTaskLabel, ← hqact]
              simp
          intro e he
          rcases givenDistExampleList_mem gen shots p st salient_type.value
            for_finetuning finetuning_control d e he with ⟨r2, et2, dr2, het2, he2⟩
          have heact : e.active_task_label = ((labelFor st e == d.salientTaskLabel)
              == d.activeTaskLabel) := by
            rw [he2]
            exact givenDistExample_active gen st salient_type.value
              d.salientTaskLabel d.activeTaskLabel r2 et2 hstc het2 dr2
          rw [heact, hk2, bool_beq_assoc]

/-- Fixed draw bundle for the directed path, used in witnesses. -/
def sampleGivenDistDraws : GivenDistDraws :=
  { salientTaskLabel := true
    activeTaskLabel := true
    fixedRandomizeTasks := true
    randomizeTasks := fun _ => true
    exampleTypeIdx := fun _ => 0
    exDraws := fun _ => constDraws3 }

/-- The example the directed-path witness run generates three times. -/
def sampleDirectedExample : Example :=
  { construction_type := ConstructionType.SUBJECT_LOCATION
    format_type := "qa"
    construction := "The student is in the laboratory."
    task_a_label := true
    task_b_label := true
    active_task_label := true
    salient_task := some "subject" }

/-- Witness for C2 on a concrete directed build (subject-location, three
shots, ambiguity probability 50). -/
theorem C2_witness :
    sampleDirectedExample.active_task_label =
      (labelFor "task_a" sampleDirectedExample == (("task_a", true) : String × Bool).2) :=
  C2_directed_label_invariant ConstructionType.SUBJECT_LOCATION "qa" 3 50
    ConstructionType.SUBJECT true false sampleGivenDistDraws
    [sampleDirectedExample, sampleDirectedExample, sampleDirectedExample]
    HumanSubjects (by rfl) "task_a" (by rfl) true ("task_a", true) (by rfl)
    sampleDirectedExample (by simp)

/-- Mirroring always carries the reference's `salient_task` into the new
example. -/
theorem generateExampleGivenSalient_salient (gen : Generator) (c : Bool)
    (dr : Draws3) (e : Example) :
    (gen.generateExampleGivenSalient c dr e).salient_task = e.salient_task := by
  obtain ⟨k, ct, ft⟩ := gen
  cases c <;> cases k <;> rfl

/-- The mirroring loop only appends to the list it is given. -/
theorem addMirrors_extends (gen : Generator) (coins : Nat → Bool)
    (draws : Nat → Draws3) :
    ∀ (k i : Nat) (cur : List Example),
      ∃ tail, addMirrors gen coins draws k i cur = cur ++ tail := by
  intro k
  induction k with
  | zero => intro i cur; exact ⟨[], by simp [addMirrors]⟩
  | succ n ih =>
      intro i cur
      obtain ⟨t, ht⟩ := ih (i + 1)
        (cur ++ [gen.generateExampleGivenSalient (coins i) (draws i)
          (cur.getLastD default)])
      refine ⟨gen.generateExampleGivenSalient (coins i) (draws i)
        (cur.getLastD default) :: t, ?_⟩
      rw [addMirrors]
      rw [ht, List.append_assoc]
      rfl

/-- If every example in a non-empty running list carries the salient stamp
`some v`, so does every example after the mirroring loop. -/
theorem addMirrors_salient (gen : Generator) (coins : Nat → Bool)
    (draws : Nat → Draws3) (v : String) :
    ∀ (k i : Nat) (cur : List Example), cur ≠ [] →
      (∀ e ∈ cur, e.salient_task = some v) →
      ∀ e ∈ addMirrors gen coins draws k i cur, e.salient_task = some v := by
  intro k
  induction k with
  | zero => intro i cur _ hall e he; exact hall e he
  | succ n ih =>
      intro i cur hne hall e he
      rw [addMirrors] at he
      refine ih (i + 1) _ (by simp) ?_ e he
      intro x hx
      rcases List.mem_append.mp hx with h | h
      · exact hall x h
      · have hx1 : x = gen.generateExampleGivenSalient (coins i) (draws i)
            (cur.getLastD default) := by simpa using h
        rw [hx1, generateExampleGivenSalient_salient]
        exact hall _ (getLastD_mem cur default hne)

/-- C3: after an undirected build with ambiguous context examples included,
every example in the final list — context pair, query and all appended
mirrored examples — carries the identical non-null `salient_task`, namely the
string value of the resolved salient category's parent feature. -/
theorem C3_stamping_propagation (ct : ConstructionType) (ft : String)
    (shots : Nat) (d : NoSalientDraws) (examples : List Example)
    (cat : ExampleCategory)
    (hbuild : makeExamplesWithoutSalientType ct ft shots true d =
      Except.ok (examples, cat)) :
    ∀ e ∈ examples, e.salient_task = some cat.parent.value := by
  rcases hg : getGeneratorFromConstructionType ct ft with err | gen
  · rw [makeExamplesWithoutSalientType, hg] at hbuild
    exact absurd hbuild (by simp)
  · rw [makeExamplesWithoutSalientType, hg] at hbuild
    simp only [] at hbuild
    split at hbuild
    · exact absurd hbuild (by simp)
    · rename_i key ho
      split at hbuild
      · exact absurd hbuild (by simp)
      · rename_i cat2 hc
        have hx := Except.ok.inj hbuild
        have hex : examples = addMirrors gen d.mirrorCoin d.mirrorDraws
            (shots - 1) 0 ((noSalientContext gen true d ++ [noSalientQuery gen d]).map
              (fun e => { e with salient_task := some cat2.parent.value })) :=
          (congrArg Prod.fst hx).symm
        have hcat : cat2 = cat := congrArg Prod.snd hx
        subst hcat
        subst hex
        apply addMirrors_salient
        · simp
        · intro x hx2
          rcases List.mem_map.mp hx2 with ⟨y, _, hy⟩
          rw [← hy]

/-- The concrete undirected witness build (subject-location, three shots,
ambiguous context included, fixed draws). -/
def cUndirectedResult : Except PyError (List Example × ExampleCategory) :=
  makeExamplesWithoutSalientType ConstructionType.SUBJECT_LOCATION "qa" 3 true
    sampleNoSalientDraws

/-- Example list of the concrete undirected witness build. -/
def cUndirectedExamples : List Example :=
  (cUndirectedResult.toOption.map Prod.fst).getD []

/-- Salient category of the concrete undirected witness build. -/
def cUndirectedCat : ExampleCategory :=
  (cUndirectedResult.toOption.map Prod.snd).getD HumanSubjects

/-- Witness for C3 on the concrete undirected build: the first example of the
result carries the resolved category's parent feature as its salient task. -/
theorem C3_witness :
    (cUndirectedExamples.getD 0 default).salient_task =
      some cUndirectedCat.parent.value :=
  C3_stamping_propagation ConstructionType.SUBJECT_LOCATION "qa" 3
    sampleNoSalientDraws cUndirectedExamples cUndirectedCat (by rfl)
    (cUndirectedExamples.getD 0 default) (by decide)

/-- C10: on the undirected path with ambiguous context examples included, the
two context examples always receive opposite active labels (the first takes
the label coin, the second its negation) and opposite feature assignments
(one is all-true, the other all-false, by the order coin); hence any query
example agrees in active label with exactly one of the two context examples,
so the infer-from-sequence resolver's anchor is uniquely determined. -/
theorem C10_context_pair_opposition (gen : Generator) (d : NoSalientDraws) :
    (noSalientContext gen true d).length = 2 ∧
    ((noSalientContext gen true d).getD 0 default).active_task_label
      = d.labelRandomizer ∧
    ((noSalientContext gen true d).getD 1 default).active_task_label
      = !d.labelRandomizer ∧
    ((noSalientContext gen true d).getD 0 default).task_a_label
      = d.orderRandomizer ∧
    ((noSalientContext gen true d).getD 0 default).task_b_label
      = d.orderRandomizer ∧
    ((noSalientContext gen true d).getD 1 default).task_a_label
      = !d.orderRandomizer ∧
    ((noSalientContext gen true d).getD 1 default).task_b_label
      = !d.orderRandomizer ∧
    (((noSalientQuery gen d).active_task_label =
        ((noSalientContext gen true d).getD 0 default).active_task_label) ↔
      ¬((noSalientQuery gen d).active_task_label =
        ((noSalientContext gen true d).getD 1 default).active_task_label)) := by
  obtain ⟨k, gct, gft⟩ := gen
  cases hdo : d.orderRandomizer <;> cases hdl : d.labelRandomizer <;>
    cases hdq : d.queryLabelRandomizer <;> cases k <;>
      simp [noSalientContext, noSalientQuery, Generator.generateExample,
        generateExampleSL, generateExampleRP, generateExamplePN, hdo, hdl, hdq]

/-- Decidable test: the example's sentence is a subject-location rendering of
some human subject in some urban location. -/
def isHumanUrban (e : Example) : Bool :=
  HumanSubjects.values.any (fun h => UrbanLocations.values.any (fun u =>
    e.construction == "The " ++ h ++ " is in the " ++ u ++ "."))

/-- Decidable test: the example's sentence is a subject-location rendering of
some animal subject in some natural location. -/
def isAnimalNatural (e : Example) : Bool :=
  AnimalSubjects.values.any (fun h => NaturalLocations.values.any (fun u =>
    e.construction == "The " ++ h ++ " is in the " ++ u ++ "."))

/-- A subject-location example generated with both labels true renders a human
subject in an urban location. -/
theorem isHumanUrban_SL (ct : ConstructionType) (ft : String) (dr : Draws3)
    (act : Bool) (st : Option String) :
    isHumanUrban (generateExampleSL ct ft dr true true act st) = true := by
  have h1 := pick_mem HumanSubjects.values dr.ia (by decide)
  have h2 := pick_mem UrbanLocations.values dr.ib (by decide)
  simp only [isHumanUrban, List.any_eq_true]
  exact ⟨_, h1, _, h2, by simp [generateExampleSL]⟩

/-- A subject-location example generated with both labels false renders an
animal subject in a natural location. -/
theorem isAnimalNatural_SL (ct : ConstructionType) (ft : String) (dr : Draws3)
    (act : Bool) (st : Option String) :
    isAnimalNatural (generateExampleSL ct ft dr false false act st) = true := by
  have h1 := pick_mem AnimalSubjects.values dr.ia (by decide)
  have h2 := pick_mem NaturalLocations.values dr.ib (by decide)
  simp only [isAnimalNatural, List.any_eq_true]
  exact ⟨_, h1, _, h2, by simp [generateExampleSL]⟩

/-- The infer-from-sequence resolver only ever returns the two task names. -/
theorem obtainSalientTaskKey_fst (es : List Example) (key : String × Bool)
    (h : obtainSalientTaskKey es = Except.ok key) :
    key.1 = "task_a" ∨ key.1 = "task_b" := by
  rcases es with _ | ⟨e1, es⟩
  · exact Except.noConfusion h
  rcases es with _ | ⟨e2, es⟩
  · exact Except.noConfusion h
  rcases es with _ | ⟨q, rest⟩
  · exact Except.noConfusion h
  obtain ⟨ct1, f1, c1, a1, b1, x1, s1⟩ := e1
  obtain ⟨ct2, f2, c2, a2, b2, x2, s2⟩ := e2
  obtain ⟨ctq, fq, cq, aq, bq, xq, sq⟩ := q
  revert h
  cases xq <;> cases x1 <;> cases aq <;> cases a1 <;> cases a2 <;> cases bq <;>
    (intro h; rw [← Except.ok.inj h]; simp)

/-- The subject-location generator instance the factory returns for the
`subject_location` construction type. -/
def subjectLocationGen (ft : String) : Generator :=
  { kind := .subjectLocation
    construction_type := ConstructionType.SUBJECT_LOCATION
    format_type := ft }

/-- C8 (amended): in every subject-location undirected build with three shots
and ambiguous context examples, one of the first two sentences renders a human
subject in an urban location and the other an animal subject in a natural
location (in the order picked by the order coin), and the resolved salient
category's label is one of the four subject-location labels. -/
theorem C8_subject_location_scenario (ft : String) (d : NoSalientDraws)
    (examples : List Example) (cat : ExampleCategory)
    (hbuild : makeExamplesWithoutSalientType ConstructionType.SUBJECT_LOCATION
      ft 3 true d = Except.ok (examples, cat)) :
    ((isHumanUrban (examples.getD 0 default) = true ∧
      isAnimalNatural (examples.getD 1 default) = true) ∨
     (isAnimalNatural (examples.getD 0 default) = true ∧
      isHumanUrban (examples.getD 1 default) = true)) ∧
    cat.label ∈ ["human_subject", "animal_subject",
      "urban_location", "natural_location"] := by
  have hgen : getGeneratorFromConstructionType ConstructionType.SUBJECT_LOCATION ft
      = Except.ok (subjectLocationGen ft) := rfl
  rw [makeExamplesWithoutSalientType, hgen] at hbuild
  simp only [] at hbuild
  split at hbuild
  · exact absurd hbuild (by simp)
  · rename_i key ho
    split at hbuild
    · exact absurd hbuild (by simp)
    · rename_i cat2 hc
      have hx := Except.ok.inj hbuild
      have hex : examples = addMirrors (subjectLocationGen ft)
          d.mirrorCoin d.mirrorDraws (3 - 1) 0
          ((noSalientContext (subjectLocationGen ft) true d
            ++ [noSalientQuery (subjectLocationGen ft) d]).map
            (fun e => { e with salient_task := some cat2.parent.value })) :=
        (congrArg Prod.fst hx).symm
      have hcat : cat2 = cat := congrArg Prod.snd hx
      subst hcat
      constructor
      · obtain ⟨tail, htail⟩ := addMirrors_extends (subjectLocationGen ft)
          d.mirrorCoin d.mirrorDraws (3 - 1) 0
          ((noSalientContext (subjectLocationGen ft) true d
            ++ [noSalientQuery (subjectLocationGen ft) d]).map
            (fun e => { e with salient_task := some cat2.parent.value }))
        rw [hex, htail]
        rw [List.getD_append _ _ _ _ (by simp [noSalientContext]),
            List.getD_append _ _ _ _ (by simp [noSalientContext])]
        cases hdo : d.orderRandomizer
        · refine Or.inr ⟨?_, ?_⟩
          · simpa [noSalientContext, subjectLocationGen,
              Generator.generateExample, hdo] using
              isAnimalNatural_SL ConstructionType.SUBJECT_LOCATION ft
                (d.ctxDraws 0) d.labelRandomizer none
          · simpa [noSalientContext, subjectLocationGen,
              Generator.generateExample, hdo] using
              isHumanUrban_SL ConstructionType.SUBJECT_LOCATION ft
                (d.ctxDraws 1) (!d.labelRandomizer) none
        · refine Or.inl ⟨?_, ?_⟩
          · simpa [noSalientContext, subjectLocationGen,
              Generator.generateExample, hdo] using
              isHumanUrban_SL ConstructionType.SUBJECT_LOCATION ft
                (d.ctxDraws 0) d.labelRandomizer none
          · simpa [noSalientContext, subjectLocationGen,
              Generator.generateExample, hdo] using
              isAnimalNatural_SL ConstructionType.SUBJECT_LOCATION ft
                (d.ctxDraws 1) (!d.labelRandomizer) none
      · simp only [if_true] at ho
        obtain ⟨k1, k2⟩ := key
        rcases obtainSalientTaskKey_fst _ _ ho with h | h
        · have hk1 : k1 = "task_a" := h
          subst hk1
          cases k2 <;> (rw [← Except.ok.inj hc]; decide)
        · have hk1 : k1 = "task_b" := h
          subst hk1
          cases k2 <;> (rw [← Except.ok.inj hc]; decide)

/-- C8 counterexample: in the concrete undirected subject-location build the
two context sentences use opposite subject/location pairings, so they are
neither both human-urban nor both animal-natural as the claim asserts. -/
theorem C8_counterexample :
    ¬((isHumanUrban (cUndirectedExamples.getD 0 default) = true ∧
       isHumanUrban (cUndirectedExamples.getD 1 default) = true) ∨
      (isAnimalNatural (cUndirectedExamples.getD 0 default) = true ∧
       isAnimalNatural (cUndirectedExamples.getD 1 default) = true)) := by
  decide

/-- Witness for C8 on the concrete undirected subject-location build. -/
theorem C8_witness :
    ((isHumanUrban (cUndirectedExamples.getD 0 default) = true ∧
      isAnimalNatural (cUndirectedExamples.getD 1 default) = true) ∨
     (isAnimalNatural (cUndirectedExamples.getD 0 default) = true ∧
      isHumanUrban (cUndirectedExamples.getD 1 default) = true)) ∧
    cUndirectedCat.label ∈ ["human_subject", "animal_subject",
      "urban_location", "natural_location"] :=
  C8_subject_location_scenario "qa" sampleNoSalientDraws cUndirectedExamples
    cUndirectedCat (by rfl)
